import Mathlib

/-!
# Verification of the `nbg` CLI (ktmcp-cli/nbg)

Shallow embedding of `src/api.js`, `src/index.js`, and the configuration
store of the CLI (`src/config.js`, which only the spec describes).

JavaScript values are modelled by the inductive type `JVal`, whose first
constructor stands for JavaScript's `undefined`.  Property access, the `||` and `??`
operators, optional chaining, `String(...)` conversion and
`JSON.stringify(value, null, 2)` are given as Lean functions mirroring the
JS semantics on the value space exercised by the program.

Modelling conventions (each noted where relevant):
* chalk colour styling is elided: the output strings are modelled without
  ANSI escape codes, as chalk emits them when stdout is not a TTY;
* the ora spinner writes no persistent output and is elided;
* plain property access `e.f` on `null`/`undefined` throws in JS.  The
  one such access every command performs on the raw response body —
  `data.Data` — is modelled explicitly: on a nullish body the action
  yields `plainAccessThrow`, the caught-TypeError outcome (local message,
  exit 1).  The remaining plain accesses (on elements of item arrays,
  which the `|| {}` / `|| []` guards do not cover) return the undefined
  value in the model; every theorem touching them carries a hypothesis
  keeping those receivers non-nullish;
* `JVal.obj` association lists are read with first-match lookup; objects
  considered here have pairwise distinct keys, where this agrees with JS;
* JSON numbers are modelled as integers (`Int`), which covers the shapes
  the claims exercise.
-/

namespace Nbg

/-- A JavaScript value, including `undefined`. -/
inductive JVal where
  | undefined : JVal
  | jnull : JVal
  | bool : Bool → JVal
  | num : Int → JVal
  | str : String → JVal
  | arr : List JVal → JVal
  | obj : List (String × JVal) → JVal

/-- `v` is `null` or `undefined` (the values treated alike by `??` and `?.`). -/
def isNullish : JVal → Bool
  | .undefined => true
  | .jnull => true
  | _ => false

/-- JS truthiness: `undefined`, `null`, `false`, `0`, `""` are falsy. -/
def truthy : JVal → Bool
  | .undefined => false
  | .jnull => false
  | .bool b => b
  | .num n => n != 0
  | .str s => !s.isEmpty
  | .arr _ => true
  | .obj _ => true

/-- First-match lookup in an object's field list. -/
def getField : List (String × JVal) → String → JVal
  | [], _ => .undefined
  | (k, v) :: rest, key => if k = key then v else getField rest key

/-- Property access `e.f`.  Unknown properties give `undefined`; on a
non-object receiver JS gives `undefined` for the properties used by this
program (on `null`/`undefined` JS throws — see the module comment). -/
def getProp : JVal → String → JVal
  | .obj fs, k => getField fs k
  | _, _ => .undefined

/-- Index access `e[i]`: array element, or a one-character string for a
string receiver (as in JS); `undefined` otherwise. -/
def getIdx : JVal → Nat → JVal
  | .arr xs, i => (xs.get? i).getD .undefined
  | .str s, i => if h : i < s.data.length then .str (String.mk [s.data.get ⟨i, h⟩]) else .undefined
  | _, _ => .undefined

/-- Optional chaining `e?.f`. -/
def optProp (v : JVal) (k : String) : JVal :=
  if isNullish v then .undefined else getProp v k

/-- Optional chaining `e?.[i]`. -/
def optIdx (v : JVal) (i : Nat) : JVal :=
  if isNullish v then .undefined else getIdx v i

/-- JS `a || b`. -/
def jor (a b : JVal) : JVal := if truthy a then a else b

/-- JS `a ?? b`. -/
def nullishOr (a b : JVal) : JVal := if isNullish a then b else a

mutual

/-- JS `String(v)` conversion (array elements that are `null`/`undefined`
join as empty strings, per `Array.prototype.join`). -/
def jsToString : JVal → String
  | .undefined => "undefined"
  | .jnull => "null"
  | .bool b => cond b "true" "false"
  | .num n => toString n
  | .str s => s
  | .arr xs => String.intercalate "," (joinParts xs)
  | .obj _ => "[object Object]"

/-- The strings an array's elements contribute to `join`. -/
def joinParts : List JVal → List String
  | [] => []
  | x :: xs => (if isNullish x then "" else jsToString x) :: joinParts xs

end

/-- `Array.prototype.join(sep)` on an array value; `undefined` on a
non-array (JS would throw there — never reached by the program, which only
calls `join` behind an optional chain guarding an array field). -/
def jsJoin (v : JVal) (sep : String) : JVal :=
  match v with
  | .arr xs => .str (String.intercalate sep (joinParts xs))
  | _ => .undefined

/-! ## JSON.stringify with two-space indentation -/

/-- Hexadecimal digit for `\uNNNN` escapes. -/
def hexDigit (n : Nat) : Char :=
  if n < 10 then Char.ofNat (48 + n) else Char.ofNat (87 + n)

/-- Escape one character as inside a JSON string literal. -/
def jsonEscapeChar (c : Char) : String :=
  if c = '"' then "\\\""
  else if c = '\\' then "\\\\"
  else if c = '\n' then "\\n"
  else if c = '\r' then "\\r"
  else if c = '\t' then "\\t"
  else if c = Char.ofNat 8 then "\\b"
  else if c = Char.ofNat 12 then "\\f"
  else if c.toNat < 32 then
    "\\u00" ++ String.mk [hexDigit (c.toNat / 16), hexDigit (c.toNat % 16)]
  else String.mk [c]

/-- A JSON string literal with quotes. -/
def jsonQuote (s : String) : String :=
  "\"" ++ String.join (s.data.map jsonEscapeChar) ++ "\""

/-- `d` levels of two-space indentation. -/
def indentStr (d : Nat) : String := String.mk (List.replicate (2 * d) ' ')

mutual

/-- `JSON.stringify(v, null, 2)` at nesting depth `d`; `none` when the
value is not serialisable (`undefined`), as in JS. -/
def jstr (d : Nat) : JVal → Option String
  | .undefined => none
  | .jnull => some "null"
  | .bool b => some (cond b "true" "false")
  | .num n => some (toString n)
  | .str s => some (jsonQuote s)
  | .arr xs =>
      let items := jstrArr (d + 1) xs
      some (if items.isEmpty then "[]"
        else "[\n" ++
          String.intercalate ",\n" (items.map (fun s => indentStr (d + 1) ++ s)) ++
          "\n" ++ indentStr d ++ "]")
  | .obj fs =>
      let items := jstrObj (d + 1) fs
      some (if items.isEmpty then "\x7b\x7d"
        else "\x7b\n" ++
          String.intercalate ",\n" (items.map (fun s => indentStr (d + 1) ++ s)) ++
          "\n" ++ indentStr d ++ "\x7d")

/-- Array items; an unserialisable element renders as `null`. -/
def jstrArr (d : Nat) : List JVal → List String
  | [] => []
  | x :: xs => ((jstr d x).getD "null") :: jstrArr d xs

/-- Object entries; fields with unserialisable values are skipped. -/
def jstrObj (d : Nat) : List (String × JVal) → List String
  | [] => []
  | (k, v) :: fs =>
      match jstr d v with
      | none => jstrObj d fs
      | some s => (jsonQuote k ++ ": " ++ s) :: jstrObj d fs

end

/-- `printJson` (src/index.js:68–70): logs `JSON.stringify(data, null, 2)`
as one line (`console.log(undefined)` prints `undefined`). -/
def printJson (v : JVal) : String := (jstr 0 v).getD "undefined"

/-! ## Console helpers (src/index.js:29–35) -/

/-- `console.log(a, b)` joins its arguments with one space. -/
def logTwo (a b : String) : String := a ++ " " ++ b

/-- The line `printSuccess` logs (the chalk-green `✓` without styling). -/
def successLine (message : String) : String := "✓ " ++ message

/-- The line `printError` writes to stderr; `'✗ ' + message` is JS string
concatenation, so a non-string message goes through string conversion. -/
def errorLine (message : JVal) : String := "✗ " ++ jsToString message

/-! ## Table rendering (`printTable`, src/index.js:37–66) -/

/-- One column description.  No call site of `printTable` supplies a
`format` function, so columns are a key and a label. -/
structure Column where
  key : String
  label : String

/-- JS `s.padEnd(w)`: right-pad with spaces up to `w`; never truncates. -/
def padEnd (s : String) (w : Nat) : String :=
  s ++ String.mk (List.replicate (w - s.length) ' ')

/-- JS `s.substring(0, w)`: the first `w` characters. -/
def jsSubstring0 (s : String) (w : Nat) : String :=
  String.mk (s.data.take w)

/-- The formatted value of a cell before truncation/padding:
`String(row[col.key] ?? '')`. -/
def cellRaw (c : Column) (row : JVal) : String :=
  jsToString (nullishOr (getProp row c.key) (.str ""))

/-- A column's width: the maximum of the label length and the longest
formatted cell value, capped at 50 (the loop at src/index.js:43–51). -/
def colWidth (data : List JVal) (c : Column) : Nat :=
  min (data.foldl (fun w r => max w (cellRaw c r).length) c.label.length) 50

/-- One step of filling the `widths` object: `widths[col.key] = …`. -/
def widthsStep (data : List JVal) (ws : String → Nat) (c : Column) : String → Nat :=
  fun k => if k = c.key then colWidth data c else ws k

/-- The `widths` object: built left-to-right keyed by `col.key`, so a
later column with the same key overwrites an earlier one.  A key that was
never assigned reads as `0` (JS would give `undefined`; no rendering path
reads such a key). -/
def computeWidths (data : List JVal) (cols : List Column) : String → Nat :=
  cols.foldl (widthsStep data) (fun _ => 0)

/-- A header cell: `col.label.padEnd(widths[col.key])`. -/
def headerCell (data : List JVal) (cols : List Column) (c : Column) : String :=
  padEnd c.label (computeWidths data cols c.key)

/-- A data cell: `val.substring(0, widths[col.key]).padEnd(widths[col.key])`. -/
def dataCell (data : List JVal) (cols : List Column) (c : Column) (row : JVal) : String :=
  padEnd (jsSubstring0 (cellRaw c row) (computeWidths data cols c.key))
    (computeWidths data cols c.key)

/-- `printTable`: the list of logged lines.  Chalk styling (bold/cyan
header, dim separator and count) is elided. -/
def printTable (data : List JVal) (cols : List Column) : List String :=
  if data.isEmpty then ["No results found."]
  else
    let header := String.intercalate "  " (cols.map (headerCell data cols))
    [header, String.mk (List.replicate header.length '─')] ++
      data.map (fun row =>
        String.intercalate "  " (cols.map (fun c => dataCell data cols c row))) ++
      ["\n" ++ toString data.length ++ " result(s)"]

/-! ## The configuration store

`src/config.js` is imported by `src/api.js` and `src/index.js` but is not
among the sources. -/

/-- Modelled from the spec: `src/config.js` is missing from the sources.
The spec describes persisted configuration as a key/value store with keys
`baseUrl`, `accessToken`, `sandboxId`.  A store is an association list,
read with first-match lookup. -/
def ConfigStore := List (String × String)

/-- Modelled from the spec: `getConfig(key)` returns the stored value for
`key`, or `undefined` (`none`) when the key was never set. -/
def getConfig : ConfigStore → String → Option String
  | [], _ => none
  | (k, v) :: rest, key => if k = key then some v else getConfig rest key

/-- Modelled from the spec: `setConfig(key, value)` persists `value` under
`key`, leaving every other key unchanged. -/
def setConfig (store : ConfigStore) (key value : String) : ConfigStore :=
  (key, value) :: store

/-- JS `x || d` where `x` is a configuration read (`undefined` or a
string): the default applies when the value is missing or empty. -/
def jsOr (o : Option String) (d : String) : String :=
  match o with
  | none => d
  | some s => if s.isEmpty then d else s

/-- Truthiness of an optional string (a commander option value or a
configuration read): present and non-empty. -/
def strTruthy : Option String → Bool
  | none => false
  | some s => !s.isEmpty

/-! ## The HTTP client (`getClient`, src/api.js:4–26) -/

/-- What `axios.create` receives: base URL and default headers. -/
structure ClientSettings where
  baseURL : String
  headers : List (String × String)

/-- `getClient` (src/api.js:4–26). -/
def getClient (cfg : ConfigStore) : ClientSettings :=
  let baseUrl := jsOr (getConfig cfg "baseUrl") "https://apis.nbg.gr/uk/v3_1"
  let accessToken := getConfig cfg "accessToken"
  let sandboxId := getConfig cfg "sandboxId"
  { baseURL := baseUrl
    headers :=
      [("Accept", "application/json"), ("Content-Type", "application/json")] ++
      (if strTruthy accessToken then
        [("Authorization", "Bearer " ++ accessToken.getD "")] else []) ++
      (if strTruthy sandboxId then
        [("sandbox-id", sandboxId.getD "")] else []) }

/-! ## API calls (src/api.js:29–126)

Each exported function of `src/api.js` performs exactly one request on the
client; it is modelled by the request's method, path, query parameters and
body. -/

inductive Method where
  | get : Method
  | post : Method
  | delete : Method
deriving DecidableEq, Repr

structure ApiCall where
  method : Method
  path : String
  params : List (String × String)
  body : Option JVal

/-- The full request: the axios client resolves the call's path against
`baseURL` and attaches the default headers. -/
structure HttpRequest where
  method : Method
  url : String
  headers : List (String × String)
  params : List (String × String)
  body : Option JVal

def buildRequest (cfg : ConfigStore) (c : ApiCall) : HttpRequest :=
  let cl := getClient cfg
  { method := c.method, url := cl.baseURL ++ c.path, headers := cl.headers
    params := c.params, body := c.body }

def createConsent (data : JVal) : ApiCall :=
  ⟨.post, "/account-access-consents", [], some data⟩

def getConsent (consentId : String) : ApiCall :=
  ⟨.get, "/account-access-consents/" ++ consentId, [], none⟩

def deleteConsent (consentId : String) : ApiCall :=
  ⟨.delete, "/account-access-consents/" ++ consentId, [], none⟩

def getAccounts (params : List (String × String)) : ApiCall :=
  ⟨.get, "/accounts", params, none⟩

def getAccount (accountId : String) : ApiCall :=
  ⟨.get, "/accounts/" ++ accountId, [], none⟩

def getAccountBalances (accountId : String) : ApiCall :=
  ⟨.get, "/accounts/" ++ accountId ++ "/balances", [], none⟩

def getAllBalances (params : List (String × String)) : ApiCall :=
  ⟨.get, "/balances", params, none⟩

def getAccountTransactions (accountId : String)
    (params : List (String × String)) : ApiCall :=
  ⟨.get, "/accounts/" ++ accountId ++ "/transactions", params, none⟩

def getAllTransactions (params : List (String × String)) : ApiCall :=
  ⟨.get, "/transactions", params, none⟩

def getAccountBeneficiaries (accountId : String) : ApiCall :=
  ⟨.get, "/accounts/" ++ accountId ++ "/beneficiaries", [], none⟩

def getAccountStandingOrders (accountId : String) : ApiCall :=
  ⟨.get, "/accounts/" ++ accountId ++ "/standing-orders", [], none⟩

def getAccountScheduledPayments (accountId : String) : ApiCall :=
  ⟨.get, "/accounts/" ++ accountId ++ "/scheduled-payments", [], none⟩

def getAccountStatements (accountId : String)
    (params : List (String × String)) : ApiCall :=
  ⟨.get, "/accounts/" ++ accountId ++ "/statements", params, none⟩

def getAccountParty (accountId : String) : ApiCall :=
  ⟨.get, "/accounts/" ++ accountId ++ "/party", [], none⟩

def createSandbox (data : JVal) : ApiCall :=
  ⟨.post, "/sandbox", [], some data⟩

/-! ## Command actions (src/index.js:97–700)

Each CLI action is a function from its parsed arguments and the outcome of
its single API call (`Except JsError JVal`: the awaited promise either
rejects with an error or resolves to the response body) to the observable
result: stdout lines, stderr lines and the process exit code. -/

/-- The observable result of running one command. -/
structure CmdOut where
  stdout : List String
  stderr : List String
  exitCode : Nat
deriving DecidableEq, Repr

/-- An axios rejection: `message` is the local error message; `response`
is the HTTP response object when the server answered with a non-2xx
status (carrying `data`, the parsed body), and `undefined` on a network
error. -/
structure JsError where
  message : String
  response : JVal

/-- The `catch` block shared verbatim by every command action:
`printError(error.response?.data?.message || error.message);
process.exit(1);`. -/
def catchBlock (e : JsError) : CmdOut :=
  { stdout := []
    stderr := [errorLine (jor (optProp (optProp e.response "data") "message")
      (.str e.message))]
    exitCode := 1 }

/-- The `--json` branch shared by every data-returning action:
`printJson(data); return;`. -/
def jsonOut (data : JVal) : CmdOut :=
  { stdout := [printJson data], stderr := [], exitCode := 0 }

/-- Elements of an extracted list value.  JS calling `.map` on a truthy
non-array throws; modelled as the empty list — no theorem below depends on
that case. -/
def toElems : JVal → List JVal
  | .arr xs => xs
  | _ => []

/-- `e?.join(sep)`. -/
def optJoin (v : JVal) (sep : String) : JVal :=
  if isNullish v then .undefined else jsJoin v sep

/-- The local message of the TypeError thrown when a plain property
access `v.k` is evaluated on a null or undefined receiver.  The exact
engine wording is environment-specific (V8 mentions the receiver and the
key, as here); no theorem depends on the wording. -/
def typeErrorMessage (v : JVal) (k : String) : String :=
  "TypeError: cannot read " ++ k ++ " of " ++ jsToString v

/-- The outcome of a command whose `try` block throws at the plain
access `data.k` on a nullish response body: the TypeError carries no
HTTP response, so the shared catch prints the local message and exits
1. -/
def plainAccessThrow (v : JVal) (k : String) : CmdOut :=
  catchBlock { message := typeErrorMessage v k, response := .undefined }

/-- Options carrying only the global `--json` flag. -/
structure JsonOpts where
  json : Bool

/-- Options of `transactions get|list` and `statements get`: `--from`,
`--to` (field names adjusted: `from` is a Lean keyword) and `--json`. -/
structure DateJsonOpts where
  fromDate : Option String
  toDate : Option String
  json : Bool

/-- Options of `consents create`. -/
structure ConsentsCreateOpts where
  permissions : List String
  expiration : Option String
  json : Bool

/-- Options of `config set`. -/
structure ConfigSetOpts where
  baseUrl : Option String
  accessToken : Option String
  sandboxId : Option String

/-- The `--from`/`--to` query-parameter object built by
`transactions get`, `transactions list` and `statements get` (the same
two `if (options.x) params.K = options.x` lines, with the commands' key
names passed in). -/
def optParams (k1 k2 : String) (v1 v2 : Option String) :
    List (String × String) :=
  (if strTruthy v1 then [(k1, v1.getD "")] else []) ++
  (if strTruthy v2 then [(k2, v2.getD "")] else [])

/-- `config set`: returns the updated store and the command output. -/
def configSetAction (o : ConfigSetOpts) (store : ConfigStore) :
    ConfigStore × CmdOut :=
  let s1 := if strTruthy o.baseUrl then
    setConfig store "baseUrl" (o.baseUrl.getD "") else store
  let out1 := if strTruthy o.baseUrl then [successLine "Base URL set"] else []
  let s2 := if strTruthy o.accessToken then
    setConfig s1 "accessToken" (o.accessToken.getD "") else s1
  let out2 := if strTruthy o.accessToken then [successLine "Access token set"] else []
  let s3 := if strTruthy o.sandboxId then
    setConfig s2 "sandboxId" (o.sandboxId.getD "") else s2
  let out3 := if strTruthy o.sandboxId then [successLine "Sandbox ID set"] else []
  let errs := if !strTruthy o.baseUrl && !strTruthy o.accessToken &&
      !strTruthy o.sandboxId then
    [errorLine (.str "No options provided. Use --base-url, --access-token, or --sandbox-id")]
    else []
  (s3, ⟨out1 ++ out2 ++ out3, errs, 0⟩)

/-- `config show`: note that a stored access token is displayed as the
word `Set`, not as its value. -/
def configShowAction (store : ConfigStore) : CmdOut :=
  let baseUrl := jsOr (getConfig store "baseUrl")
    "https://apis.nbg.gr/uk/v3_1 (default)"
  let accessToken := jsOr (getConfig store "accessToken") "Not set"
  let sandboxId := jsOr (getConfig store "sandboxId") "Not set"
  { stdout :=
      ["\nNBG CLI Configuration\n",
       logTwo "Base URL:      " baseUrl,
       logTwo "Access Token:  " (if accessToken = "Not set" then accessToken else "Set"),
       logTwo "Sandbox ID:    " sandboxId,
       ""]
    stderr := [], exitCode := 0 }

/-! ### consents (src/index.js:144–227) -/

/-- The request body `consents create` builds from its options. -/
def consentsCreatePayload (o : ConsentsCreateOpts) : JVal :=
  .obj [("Data", .obj ([("Permissions", .arr (o.permissions.map .str))] ++
    (if strTruthy o.expiration then
      [("ExpirationDateTime", .str (o.expiration.getD ""))] else [])))]

def consentsCreateCall (o : ConsentsCreateOpts) : ApiCall :=
  createConsent (consentsCreatePayload o)

def consentsCreateAction (o : ConsentsCreateOpts)
    (result : Except JsError JVal) : CmdOut :=
  match result with
  | .error e => catchBlock e
  | .ok data =>
    if o.json then jsonOut data
    else if isNullish data then plainAccessThrow data "Data"
    else
      let consent := jor (getProp data "Data") (.obj [])
      { stdout :=
          ["\nConsent Created\n",
           logTwo "Consent ID:    " (jsToString (jor (getProp consent "ConsentId") (.str "N/A"))),
           logTwo "Status:        " (jsToString (jor (getProp consent "Status") (.str "N/A"))),
           logTwo "Permissions:   " (jsToString (jor (optJoin (getProp consent "Permissions") ", ") (.str "N/A"))),
           "",
           successLine "Consent created successfully"]
        stderr := [], exitCode := 0 }

def consentsGetCall (consentId : String) : ApiCall := getConsent consentId

def consentsGetAction (consentId : String) (o : JsonOpts)
    (result : Except JsError JVal) : CmdOut :=
  match result with
  | .error e => catchBlock e
  | .ok data =>
    if o.json then jsonOut data
    else if isNullish data then plainAccessThrow data "Data"
    else
      let consent := jor (getProp data "Data") (.obj [])
      { stdout :=
          ["\nConsent Details\n",
           logTwo "Consent ID:    " (jsToString (jor (getProp consent "ConsentId") (.str "N/A"))),
           logTwo "Status:        " (jsToString (jor (getProp consent "Status") (.str "N/A"))),
           logTwo "Permissions:   " (jsToString (jor (optJoin (getProp consent "Permissions") ", ") (.str "N/A"))),
           logTwo "Created:       " (jsToString (jor (getProp consent "CreationDateTime") (.str "N/A"))),
           logTwo "Expires:       " (jsToString (jor (getProp consent "ExpirationDateTime") (.str "N/A"))),
           ""]
        stderr := [], exitCode := 0 }

def consentsDeleteCall (consentId : String) : ApiCall := deleteConsent consentId

def consentsDeleteAction (consentId : String) (o : JsonOpts)
    (result : Except JsError JVal) : CmdOut :=
  match result with
  | .error e => catchBlock e
  | .ok data =>
    if o.json then jsonOut data
    else
      { stdout := [successLine ("Consent " ++ consentId ++ " deleted successfully")]
        stderr := [], exitCode := 0 }

/-! ### accounts (src/index.js:235–293) -/

def accountsListCall : ApiCall := getAccounts []

/-- The `tableData` row mapping of `accounts list`. -/
def accountsListRow (a : JVal) : JVal :=
  .obj [("id", getProp a "AccountId"),
        ("name", jor (jor (getProp a "Nickname")
          (optProp (optIdx (getProp a "Account") 0) "Name")) (.str "N/A")),
        ("type", jor (getProp a "AccountType") (.str "N/A")),
        ("subtype", jor (getProp a "AccountSubType") (.str "N/A"))]

def accountsListCols : List Column :=
  [⟨"id", "Account ID"⟩, ⟨"name", "Name"⟩, ⟨"type", "Type"⟩,
   ⟨"subtype", "Subtype"⟩]

def accountsListAction (o : JsonOpts) (result : Except JsError JVal) : CmdOut :=
  match result with
  | .error e => catchBlock e
  | .ok data =>
    if o.json then jsonOut data
    else if isNullish data then plainAccessThrow data "Data"
    else
      let accounts := toElems (jor (optProp (getProp data "Data") "Account") (.arr []))
      ⟨printTable (accounts.map accountsListRow) accountsListCols, [], 0⟩

def accountsGetCall (accountId : String) : ApiCall := getAccount accountId

def accountsGetAction (accountId : String) (o : JsonOpts)
    (result : Except JsError JVal) : CmdOut :=
  match result with
  | .error e => catchBlock e
  | .ok data =>
    if o.json then jsonOut data
    else if isNullish data then plainAccessThrow data "Data"
    else
      let account := jor (optIdx (optProp (getProp data "Data") "Account") 0) (.obj [])
      { stdout :=
          ["\nAccount Details\n",
           logTwo "Account ID:    " (jsToString (jor (getProp account "AccountId") (.str "N/A"))),
           logTwo "Nickname:      " (jsToString (jor (getProp account "Nickname") (.str "N/A"))),
           logTwo "Type:          " (jsToString (jor (getProp account "AccountType") (.str "N/A"))),
           logTwo "Subtype:       " (jsToString (jor (getProp account "AccountSubType") (.str "N/A"))),
           logTwo "Currency:      " (jsToString (jor (getProp account "Currency") (.str "N/A"))),
           ""]
        stderr := [], exitCode := 0 }

/-! ### balances (src/index.js:301–369) -/

def balancesGetCall (accountId : String) : ApiCall := getAccountBalances accountId

/-- The `tableData` row mapping of `balances get` — note: no `'N/A'`
fallbacks here. -/
def balancesGetRow (b : JVal) : JVal :=
  .obj [("type", getProp b "Type"),
        ("amount", optProp (getProp b "Amount") "Amount"),
        ("currency", optProp (getProp b "Amount") "Currency"),
        ("creditDebit", getProp b "CreditDebitIndicator"),
        ("datetime", getProp b "DateTime")]

def balancesGetCols : List Column :=
  [⟨"type", "Type"⟩, ⟨"amount", "Amount"⟩, ⟨"currency", "Currency"⟩,
   ⟨"creditDebit", "Credit/Debit"⟩, ⟨"datetime", "DateTime"⟩]

def balancesGetAction (accountId : String) (o : JsonOpts)
    (result : Except JsError JVal) : CmdOut :=
  match result with
  | .error e => catchBlock e
  | .ok data =>
    if o.json then jsonOut data
    else if isNullish data then plainAccessThrow data "Data"
    else
      let balances := toElems (jor (optProp (getProp data "Data") "Balance") (.arr []))
      ⟨printTable (balances.map balancesGetRow) balancesGetCols, [], 0⟩

def balancesListCall : ApiCall := getAllBalances []

def balancesListRow (b : JVal) : JVal :=
  .obj [("accountId", getProp b "AccountId"),
        ("type", getProp b "Type"),
        ("amount", optProp (getProp b "Amount") "Amount"),
        ("currency", optProp (getProp b "Amount") "Currency"),
        ("creditDebit", getProp b "CreditDebitIndicator")]

def balancesListCols : List Column :=
  [⟨"accountId", "Account ID"⟩, ⟨"type", "Type"⟩, ⟨"amount", "Amount"⟩,
   ⟨"currency", "Currency"⟩, ⟨"creditDebit", "Credit/Debit"⟩]

def balancesListAction (o : JsonOpts) (result : Except JsError JVal) : CmdOut :=
  match result with
  | .error e => catchBlock e
  | .ok data =>
    if o.json then jsonOut data
    else if isNullish data then plainAccessThrow data "Data"
    else
      let balances := toElems (jor (optProp (getProp data "Data") "Balance") (.arr []))
      ⟨printTable (balances.map balancesListRow) balancesListCols, [], 0⟩

/-! ### transactions (src/index.js:377–462) -/

def transactionsGetCall (accountId : String) (o : DateJsonOpts) : ApiCall :=
  getAccountTransactions accountId
    (optParams "fromBookingDateTime" "toBookingDateTime" o.fromDate o.toDate)

def transactionsGetRow (t : JVal) : JVal :=
  .obj [("id", getProp t "TransactionId"),
        ("amount", optProp (getProp t "Amount") "Amount"),
        ("currency", optProp (getProp t "Amount") "Currency"),
        ("creditDebit", getProp t "CreditDebitIndicator"),
        ("status", getProp t "Status"),
        ("bookingDate", getProp t "BookingDateTime"),
        ("description", jor (getProp t "TransactionInformation") (.str "N/A"))]

def transactionsGetCols : List Column :=
  [⟨"id", "Transaction ID"⟩, ⟨"amount", "Amount"⟩, ⟨"currency", "Currency"⟩,
   ⟨"creditDebit", "Credit/Debit"⟩, ⟨"bookingDate", "Booking Date"⟩,
   ⟨"description", "Description"⟩]

def transactionsGetAction (accountId : String) (o : DateJsonOpts)
    (result : Except JsError JVal) : CmdOut :=
  match result with
  | .error e => catchBlock e
  | .ok data =>
    if o.json then jsonOut data
    else if isNullish data then plainAccessThrow data "Data"
    else
      let transactions := toElems (jor (optProp (getProp data "Data") "Transaction") (.arr []))
      ⟨printTable (transactions.map transactionsGetRow) transactionsGetCols, [], 0⟩

def transactionsListCall (o : DateJsonOpts) : ApiCall :=
  getAllTransactions
    (optParams "fromBookingDateTime" "toBookingDateTime" o.fromDate o.toDate)

def transactionsListRow (t : JVal) : JVal :=
  .obj [("accountId", getProp t "AccountId"),
        ("id", getProp t "TransactionId"),
        ("amount", optProp (getProp t "Amount") "Amount"),
        ("currency", optProp (getProp t "Amount") "Currency"),
        ("creditDebit", getProp t "CreditDebitIndicator"),
        ("bookingDate", getProp t "BookingDateTime")]

def transactionsListCols : List Column :=
  [⟨"accountId", "Account ID"⟩, ⟨"id", "Transaction ID"⟩, ⟨"amount", "Amount"⟩,
   ⟨"currency", "Currency"⟩, ⟨"creditDebit", "Credit/Debit"⟩,
   ⟨"bookingDate", "Booking Date"⟩]

def transactionsListAction (o : DateJsonOpts)
    (result : Except JsError JVal) : CmdOut :=
  match result with
  | .error e => catchBlock e
  | .ok data =>
    if o.json then jsonOut data
    else if isNullish data then plainAccessThrow data "Data"
    else
      let transactions := toElems (jor (optProp (getProp data "Data") "Transaction") (.arr []))
      ⟨printTable (transactions.map transactionsListRow) transactionsListCols, [], 0⟩

/-! ### beneficiaries (src/index.js:470–501) -/

def beneficiariesGetCall (accountId : String) : ApiCall :=
  getAccountBeneficiaries accountId

def beneficiariesGetRow (b : JVal) : JVal :=
  .obj [("id", getProp b "BeneficiaryId"),
        ("name", jor (optProp (getProp b "CreditorAccount") "Name") (.str "N/A")),
        ("accountId", jor (optProp (getProp b "CreditorAccount") "Identification") (.str "N/A")),
        ("reference", jor (getProp b "Reference") (.str "N/A"))]

def beneficiariesGetCols : List Column :=
  [⟨"id", "Beneficiary ID"⟩, ⟨"name", "Name"⟩, ⟨"accountId", "Account ID"⟩,
   ⟨"reference", "Reference"⟩]

def beneficiariesGetAction (accountId : String) (o : JsonOpts)
    (result : Except JsError JVal) : CmdOut :=
  match result with
  | .error e => catchBlock e
  | .ok data =>
    if o.json then jsonOut data
    else if isNullish data then plainAccessThrow data "Data"
    else
      let beneficiaries := toElems (jor (optProp (getProp data "Data") "Beneficiary") (.arr []))
      ⟨printTable (beneficiaries.map beneficiariesGetRow) beneficiariesGetCols, [], 0⟩

/-! ### standing-orders (src/index.js:509–544) -/

def standingOrdersGetCall (accountId : String) : ApiCall :=
  getAccountStandingOrders accountId

def standingOrdersGetRow (o : JVal) : JVal :=
  .obj [("id", getProp o "StandingOrderId"),
        ("frequency", getProp o "Frequency"),
        ("amount", jor (optProp (getProp o "FirstPaymentAmount") "Amount")
          (optProp (getProp o "FinalPaymentAmount") "Amount")),
        ("currency", jor (optProp (getProp o "FirstPaymentAmount") "Currency")
          (optProp (getProp o "FinalPaymentAmount") "Currency")),
        ("nextPayment", getProp o "NextPaymentDateTime"),
        ("reference", jor (getProp o "Reference") (.str "N/A"))]

def standingOrdersGetCols : List Column :=
  [⟨"id", "Standing Order ID"⟩, ⟨"frequency", "Frequency"⟩, ⟨"amount", "Amount"⟩,
   ⟨"currency", "Currency"⟩, ⟨"nextPayment", "Next Payment"⟩,
   ⟨"reference", "Reference"⟩]

def standingOrdersGetAction (accountId : String) (o : JsonOpts)
    (result : Except JsError JVal) : CmdOut :=
  match result with
  | .error e => catchBlock e
  | .ok data =>
    if o.json then jsonOut data
    else if isNullish data then plainAccessThrow data "Data"
    else
      let orders := toElems (jor (optProp (getProp data "Data") "StandingOrder") (.arr []))
      ⟨printTable (orders.map standingOrdersGetRow) standingOrdersGetCols, [], 0⟩

/-! ### scheduled-payments (src/index.js:552–585) -/

def scheduledPaymentsGetCall (accountId : String) : ApiCall :=
  getAccountScheduledPayments accountId

def scheduledPaymentsGetRow (p : JVal) : JVal :=
  .obj [("id", getProp p "ScheduledPaymentId"),
        ("scheduledDate", getProp p "ScheduledPaymentDateTime"),
        ("amount", optProp (getProp p "InstructedAmount") "Amount"),
        ("currency", optProp (getProp p "InstructedAmount") "Currency"),
        ("reference", jor (getProp p "Reference") (.str "N/A"))]

def scheduledPaymentsGetCols : List Column :=
  [⟨"id", "Payment ID"⟩, ⟨"scheduledDate", "Scheduled Date"⟩,
   ⟨"amount", "Amount"⟩, ⟨"currency", "Currency"⟩, ⟨"reference", "Reference"⟩]

def scheduledPaymentsGetAction (accountId : String) (o : JsonOpts)
    (result : Except JsError JVal) : CmdOut :=
  match result with
  | .error e => catchBlock e
  | .ok data =>
    if o.json then jsonOut data
    else if isNullish data then plainAccessThrow data "Data"
    else
      let payments := toElems (jor (optProp (getProp data "Data") "ScheduledPayment") (.arr []))
      ⟨printTable (payments.map scheduledPaymentsGetRow) scheduledPaymentsGetCols, [], 0⟩

/-! ### statements (src/index.js:593–632) -/

def statementsGetCall (accountId : String) (o : DateJsonOpts) : ApiCall :=
  getAccountStatements accountId
    (optParams "fromStatementDateTime" "toStatementDateTime" o.fromDate o.toDate)

def statementsGetRow (s : JVal) : JVal :=
  .obj [("id", getProp s "StatementId"),
        ("type", getProp s "Type"),
        ("startDate", getProp s "StartDateTime"),
        ("endDate", getProp s "EndDateTime"),
        ("description", jor (optIdx (getProp s "StatementDescription") 0) (.str "N/A"))]

def statementsGetCols : List Column :=
  [⟨"id", "Statement ID"⟩, ⟨"type", "Type"⟩, ⟨"startDate", "Start Date"⟩,
   ⟨"endDate", "End Date"⟩, ⟨"description", "Description"⟩]

def statementsGetAction (accountId : String) (o : DateJsonOpts)
    (result : Except JsError JVal) : CmdOut :=
  match result with
  | .error e => catchBlock e
  | .ok data =>
    if o.json then jsonOut data
    else if isNullish data then plainAccessThrow data "Data"
    else
      let statements := toElems (jor (optProp (getProp data "Data") "Statement") (.arr []))
      ⟨printTable (statements.map statementsGetRow) statementsGetCols, [], 0⟩

/-! ### party (src/index.js:640–665) -/

def partyGetCall (accountId : String) : ApiCall := getAccountParty accountId

def partyGetAction (accountId : String) (o : JsonOpts)
    (result : Except JsError JVal) : CmdOut :=
  match result with
  | .error e => catchBlock e
  | .ok data =>
    if o.json then jsonOut data
    else if isNullish data then plainAccessThrow data "Data"
    else
      let party := jor (optProp (getProp data "Data") "Party") (.obj [])
      { stdout :=
          ["\nParty Information\n",
           logTwo "Party ID:      " (jsToString (jor (getProp party "PartyId") (.str "N/A"))),
           logTwo "Name:          " (jsToString (jor (getProp party "Name") (.str "N/A"))),
           logTwo "Type:          " (jsToString (jor (getProp party "PartyType") (.str "N/A"))),
           logTwo "Email:         " (jsToString (jor (getProp party "EmailAddress") (.str "N/A"))),
           logTwo "Phone:         " (jsToString (jor (getProp party "Phone") (.str "N/A"))),
           ""]
        stderr := [], exitCode := 0 }

/-! ### sandbox (src/index.js:673–700) -/

/-- The body `sandbox create` builds; `now` stands for `Date.now()`. -/
def sandboxCreatePayload (now : Int) : JVal :=
  .obj [("Data", .obj [("sandboxId", .str ("sandbox-" ++ toString now))])]

def sandboxCreateCall (now : Int) : ApiCall :=
  createSandbox (sandboxCreatePayload now)

def sandboxCreateAction (o : JsonOpts) (result : Except JsError JVal) : CmdOut :=
  match result with
  | .error e => catchBlock e
  | .ok data =>
    if o.json then jsonOut data
    else if isNullish data then plainAccessThrow data "Data"
    else
      { stdout :=
          ["\nSandbox Created\n",
           logTwo "Sandbox ID:    " (jsToString (jor (optProp (getProp data "Data") "sandboxId") (.str "N/A"))),
           "",
           successLine "Sandbox created successfully. Use \"nbg config set --sandbox-id <id>\" to configure it."]
        stderr := [], exitCode := 0 }

/-! # Claim theorems -/

/-- C1: every command action, on a rejected API call, runs the shared
catch block; that block exits with code 1 and writes exactly one line to
stderr, carrying the server-provided message (`error.response.data.message`,
string-converted) when the response carries a truthy one, and the local
`error.message` otherwise.  The line is prefixed by the `✗` marker that
`printError` adds; nothing is written to stdout. -/
theorem c1_failure_exit1_single_stderr_message :
    (∀ e : JsError, (catchBlock e).exitCode = 1 ∧ (catchBlock e).stdout = [] ∧
      (catchBlock e).stderr =
        [if truthy (optProp (optProp e.response "data") "message") = true then
           "✗ " ++ jsToString (optProp (optProp e.response "data") "message")
         else "✗ " ++ e.message]) ∧
    (∀ o e, consentsCreateAction o (.error e) = catchBlock e) ∧
    (∀ cid o e, consentsGetAction cid o (.error e) = catchBlock e) ∧
    (∀ cid o e, consentsDeleteAction cid o (.error e) = catchBlock e) ∧
    (∀ o e, accountsListAction o (.error e) = catchBlock e) ∧
    (∀ aid o e, accountsGetAction aid o (.error e) = catchBlock e) ∧
    (∀ aid o e, balancesGetAction aid o (.error e) = catchBlock e) ∧
    (∀ o e, balancesListAction o (.error e) = catchBlock e) ∧
    (∀ aid o e, transactionsGetAction aid o (.error e) = catchBlock e) ∧
    (∀ o e, transactionsListAction o (.error e) = catchBlock e) ∧
    (∀ aid o e, beneficiariesGetAction aid o (.error e) = catchBlock e) ∧
    (∀ aid o e, standingOrdersGetAction aid o (.error e) = catchBlock e) ∧
    (∀ aid o e, scheduledPaymentsGetAction aid o (.error e) = catchBlock e) ∧
    (∀ aid o e, statementsGetAction aid o (.error e) = catchBlock e) ∧
    (∀ aid o e, partyGetAction aid o (.error e) = catchBlock e) ∧
    (∀ o e, sandboxCreateAction o (.error e) = catchBlock e) := by
  refine ⟨fun e => ⟨rfl, rfl, ?_⟩, ?_⟩
  · by_cases h : truthy (optProp (optProp e.response "data") "message") = true <;>
      simp only [catchBlock, errorLine, jor, h, if_true, if_false,
        Bool.not_eq_true] at * <;>
      simp [h, jsToString]
  · and_intros <;> intros <;> rfl

/-- C2: every data-returning command invoked with `--json`, on a
successful response, prints exactly `JSON.stringify(data, null, 2)` of the
raw body as its only stdout line, writes nothing to stderr, exits 0, and
produces no table output. -/
theorem c2_json_flag_prints_raw_body :
    (∀ perms exp data, consentsCreateAction ⟨perms, exp, true⟩ (.ok data) =
      ⟨[printJson data], [], 0⟩) ∧
    (∀ cid data, consentsGetAction cid ⟨true⟩ (.ok data) = ⟨[printJson data], [], 0⟩) ∧
    (∀ cid data, consentsDeleteAction cid ⟨true⟩ (.ok data) = ⟨[printJson data], [], 0⟩) ∧
    (∀ data, accountsListAction ⟨true⟩ (.ok data) = ⟨[printJson data], [], 0⟩) ∧
    (∀ aid data, accountsGetAction aid ⟨true⟩ (.ok data) = ⟨[printJson data], [], 0⟩) ∧
    (∀ aid data, balancesGetAction aid ⟨true⟩ (.ok data) = ⟨[printJson data], [], 0⟩) ∧
    (∀ data, balancesListAction ⟨true⟩ (.ok data) = ⟨[printJson data], [], 0⟩) ∧
    (∀ aid f t data, transactionsGetAction aid ⟨f, t, true⟩ (.ok data) =
      ⟨[printJson data], [], 0⟩) ∧
    (∀ f t data, transactionsListAction ⟨f, t, true⟩ (.ok data) =
      ⟨[printJson data], [], 0⟩) ∧
    (∀ aid data, beneficiariesGetAction aid ⟨true⟩ (.ok data) = ⟨[printJson data], [], 0⟩) ∧
    (∀ aid data, standingOrdersGetAction aid ⟨true⟩ (.ok data) = ⟨[printJson data], [], 0⟩) ∧
    (∀ aid data, scheduledPaymentsGetAction aid ⟨true⟩ (.ok data) = ⟨[printJson data], [], 0⟩) ∧
    (∀ aid f t data, statementsGetAction aid ⟨f, t, true⟩ (.ok data) =
      ⟨[printJson data], [], 0⟩) ∧
    (∀ aid data, partyGetAction aid ⟨true⟩ (.ok data) = ⟨[printJson data], [], 0⟩) ∧
    (∀ data, sandboxCreateAction ⟨true⟩ (.ok data) = ⟨[printJson data], [], 0⟩) := by
  and_intros <;> intros <;> rfl

/-- C7: each command verb issues its single documented request — the
method and path (and, where applicable, the body and query parameters)
are exactly the ones of `src/api.js`.  Each action is modelled with
exactly one `ApiCall`, matching the one `await client.⟨method⟩(...)` in
its `try` block. -/
theorem c7_command_request_method_path :
    (∀ o, consentsCreateCall o =
      ⟨.post, "/account-access-consents", [], some (consentsCreatePayload o)⟩) ∧
    (∀ cid, consentsGetCall cid = ⟨.get, "/account-access-consents/" ++ cid, [], none⟩) ∧
    (∀ cid, consentsDeleteCall cid = ⟨.delete, "/account-access-consents/" ++ cid, [], none⟩) ∧
    accountsListCall = ⟨.get, "/accounts", [], none⟩ ∧
    (∀ aid, accountsGetCall aid = ⟨.get, "/accounts/" ++ aid, [], none⟩) ∧
    (∀ aid, balancesGetCall aid = ⟨.get, "/accounts/" ++ aid ++ "/balances", [], none⟩) ∧
    balancesListCall = ⟨.get, "/balances", [], none⟩ ∧
    (∀ aid o, transactionsGetCall aid o =
      ⟨.get, "/accounts/" ++ aid ++ "/transactions",
        optParams "fromBookingDateTime" "toBookingDateTime" o.fromDate o.toDate, none⟩) ∧
    (∀ o, transactionsListCall o =
      ⟨.get, "/transactions",
        optParams "fromBookingDateTime" "toBookingDateTime" o.fromDate o.toDate, none⟩) ∧
    (∀ aid, beneficiariesGetCall aid =
      ⟨.get, "/accounts/" ++ aid ++ "/beneficiaries", [], none⟩) ∧
    (∀ aid, standingOrdersGetCall aid =
      ⟨.get, "/accounts/" ++ aid ++ "/standing-orders", [], none⟩) ∧
    (∀ aid, scheduledPaymentsGetCall aid =
      ⟨.get, "/accounts/" ++ aid ++ "/scheduled-payments", [], none⟩) ∧
    (∀ aid o, statementsGetCall aid o =
      ⟨.get, "/accounts/" ++ aid ++ "/statements",
        optParams "fromStatementDateTime" "toStatementDateTime" o.fromDate o.toDate, none⟩) ∧
    (∀ aid, partyGetCall aid = ⟨.get, "/accounts/" ++ aid ++ "/party", [], none⟩) ∧
    (∀ now, sandboxCreateCall now = ⟨.post, "/sandbox", [], some (sandboxCreatePayload now)⟩) := by
  and_intros <;> intros <;> rfl

/-- An item-list value that is missing, null, or the empty array. -/
def emptyListVal (v : JVal) : Prop :=
  v = .undefined ∨ v = .jnull ∨ v = .arr []

theorem toElems_jor_empty {v : JVal} (h : emptyListVal v) :
    toElems (jor v (.arr [])) = [] := by
  rcases h with h | h | h <;> subst h <;> rfl

/-- C10: every table-rendering command whose successful response yields a
missing, null, or empty item list prints the single line
`No results found.` and exits normally with code 0 — no header row, no
separator, no result count.  The premise requires a response that the
extraction `data.Data?.X || []` can evaluate: on a null or undefined
response body the plain access `data.Data` itself throws before any item
list is yielded, and the final conjunct proves that boundary — every one
of these commands then takes the caught-TypeError path and exits 1. -/
theorem c10_empty_list_no_results :
    (∀ data, isNullish data = false →
      emptyListVal (optProp (getProp data "Data") "Account") →
      accountsListAction ⟨false⟩ (.ok data) = ⟨["No results found."], [], 0⟩) ∧
    (∀ aid data, isNullish data = false →
      emptyListVal (optProp (getProp data "Data") "Balance") →
      balancesGetAction aid ⟨false⟩ (.ok data) = ⟨["No results found."], [], 0⟩) ∧
    (∀ data, isNullish data = false →
      emptyListVal (optProp (getProp data "Data") "Balance") →
      balancesListAction ⟨false⟩ (.ok data) = ⟨["No results found."], [], 0⟩) ∧
    (∀ aid f t data, isNullish data = false →
      emptyListVal (optProp (getProp data "Data") "Transaction") →
      transactionsGetAction aid ⟨f, t, false⟩ (.ok data) = ⟨["No results found."], [], 0⟩) ∧
    (∀ f t data, isNullish data = false →
      emptyListVal (optProp (getProp data "Data") "Transaction") →
      transactionsListAction ⟨f, t, false⟩ (.ok data) = ⟨["No results found."], [], 0⟩) ∧
    (∀ aid data, isNullish data = false →
      emptyListVal (optProp (getProp data "Data") "Beneficiary") →
      beneficiariesGetAction aid ⟨false⟩ (.ok data) = ⟨["No results found."], [], 0⟩) ∧
    (∀ aid data, isNullish data = false →
      emptyListVal (optProp (getProp data "Data") "StandingOrder") →
      standingOrdersGetAction aid ⟨false⟩ (.ok data) = ⟨["No results found."], [], 0⟩) ∧
    (∀ aid data, isNullish data = false →
      emptyListVal (optProp (getProp data "Data") "ScheduledPayment") →
      scheduledPaymentsGetAction aid ⟨false⟩ (.ok data) = ⟨["No results found."], [], 0⟩) ∧
    (∀ aid f t data, isNullish data = false →
      emptyListVal (optProp (getProp data "Data") "Statement") →
      statementsGetAction aid ⟨f, t, false⟩ (.ok data) = ⟨["No results found."], [], 0⟩) ∧
    (∀ aid f t data, isNullish data = true →
      accountsListAction ⟨false⟩ (.ok data) = plainAccessThrow data "Data" ∧
      balancesGetAction aid ⟨false⟩ (.ok data) = plainAccessThrow data "Data" ∧
      balancesListAction ⟨false⟩ (.ok data) = plainAccessThrow data "Data" ∧
      transactionsGetAction aid ⟨f, t, false⟩ (.ok data) = plainAccessThrow data "Data" ∧
      transactionsListAction ⟨f, t, false⟩ (.ok data) = plainAccessThrow data "Data" ∧
      beneficiariesGetAction aid ⟨false⟩ (.ok data) = plainAccessThrow data "Data" ∧
      standingOrdersGetAction aid ⟨false⟩ (.ok data) = plainAccessThrow data "Data" ∧
      scheduledPaymentsGetAction aid ⟨false⟩ (.ok data) = plainAccessThrow data "Data" ∧
      statementsGetAction aid ⟨f, t, false⟩ (.ok data) = plainAccessThrow data "Data" ∧
      (plainAccessThrow data "Data").exitCode = 1) := by
  refine ⟨fun data h0 h => ?_, fun aid data h0 h => ?_, fun data h0 h => ?_,
    fun aid f t data h0 h => ?_, fun f t data h0 h => ?_, fun aid data h0 h => ?_,
    fun aid data h0 h => ?_, fun aid data h0 h => ?_, fun aid f t data h0 h => ?_,
    fun aid f t data h1 => ?_⟩
  all_goals first
    | (refine ⟨?_, ?_, ?_, ?_, ?_, ?_, ?_, ?_, ?_, rfl⟩ <;>
        simp [accountsListAction, balancesGetAction, balancesListAction,
          transactionsGetAction, transactionsListAction, beneficiariesGetAction,
          standingOrdersGetAction, scheduledPaymentsGetAction, statementsGetAction, h1])
    | simp [accountsListAction, balancesGetAction, balancesListAction,
        transactionsGetAction, transactionsListAction, beneficiariesGetAction,
        standingOrdersGetAction, scheduledPaymentsGetAction, statementsGetAction,
        h0, toElems_jor_empty h, printTable]

/-- C10 witness: responses whose `Data` object lacks the item list, has
an empty one, or has a null one — and the null-body boundary. -/
theorem c10_empty_list_no_results_witness :
    accountsListAction ⟨false⟩ (.ok (.obj [("Data", .obj [])])) =
      ⟨["No results found."], [], 0⟩ ∧
    statementsGetAction "acc-1" ⟨none, none, false⟩ (.ok (.obj [("Data", .obj [("Statement", .arr [])])])) =
      ⟨["No results found."], [], 0⟩ ∧
    balancesGetAction "acc-1" ⟨false⟩ (.ok (.obj [("Data", .obj [("Balance", .jnull)])])) =
      ⟨["No results found."], [], 0⟩ ∧
    accountsListAction ⟨false⟩ (.ok .jnull) = plainAccessThrow .jnull "Data" :=
  ⟨c10_empty_list_no_results.1 _ rfl (Or.inl rfl),
   c10_empty_list_no_results.2.2.2.2.2.2.2.2.1 "acc-1" none none _ rfl (Or.inr (Or.inr rfl)),
   c10_empty_list_no_results.2.1 "acc-1" _ rfl (Or.inr (Or.inl rfl)),
   (c10_empty_list_no_results.2.2.2.2.2.2.2.2.2 "acc-1" none none .jnull rfl).1⟩

/-- C5: every request resolves its path against the configured base URL —
`https://apis.nbg.gr/uk/v3_1` when `baseUrl` is not configured (absent or
empty, which JS truthiness treats as unset) — and carries
`Authorization: Bearer <token>` whenever an access token is configured and
`sandbox-id: <id>` whenever a sandbox id is configured. -/
theorem c5_base_url_and_auth_headers (cfg : ConfigStore) (call : ApiCall) :
    (strTruthy (getConfig cfg "baseUrl") = false →
      (buildRequest cfg call).url = "https://apis.nbg.gr/uk/v3_1" ++ call.path) ∧
    (∀ s, getConfig cfg "baseUrl" = some s → s ≠ "" →
      (buildRequest cfg call).url = s ++ call.path) ∧
    (∀ t, getConfig cfg "accessToken" = some t → t ≠ "" →
      ("Authorization", "Bearer " ++ t) ∈ (buildRequest cfg call).headers) ∧
    (∀ i, getConfig cfg "sandboxId" = some i → i ≠ "" →
      ("sandbox-id", i) ∈ (buildRequest cfg call).headers) := by
  have hstr : ∀ s : String, s ≠ "" → strTruthy (some s) = true := by
    intro s hs
    cases he : s.isEmpty with
    | false => simp [strTruthy, he]
    | true => exact absurd ((String.isEmpty_iff s).mp he) hs
  refine ⟨fun h => ?_, fun s hs hne => ?_, fun t ht hne => ?_, fun i hi hne => ?_⟩
  · simp only [buildRequest, getClient, jsOr]
    rcases hc : getConfig cfg "baseUrl" with _ | s
    · rfl
    · rw [hc] at h
      have he : s.isEmpty = true := by simpa [strTruthy] using h
      simp [he]
  · simp only [buildRequest, getClient, jsOr, hs]
    rw [if_neg (by simpa [String.isEmpty_iff] using hne)]
  · simp only [buildRequest, getClient, ht, hstr t hne, if_true]
    by_cases h2 : strTruthy (getConfig cfg "sandboxId") = true <;> simp [h2]
  · simp only [buildRequest, getClient, hi, hstr i hne, if_true]
    by_cases h2 : strTruthy (getConfig cfg "accessToken") = true <;> simp [h2]

/-- C5 witness: a fully configured store and an unconfigured one. -/
theorem c5_base_url_and_auth_headers_witness :
    (buildRequest [] (getAccounts [])).url = "https://apis.nbg.gr/uk/v3_1" ++ "/accounts" ∧
    (buildRequest [("baseUrl", "https://example.test"), ("accessToken", "tok-1"),
        ("sandboxId", "sb-9")] (getAccounts [])).url = "https://example.test" ++ "/accounts" ∧
    ("Authorization", "Bearer " ++ "tok-1") ∈
      (buildRequest [("baseUrl", "https://example.test"), ("accessToken", "tok-1"),
        ("sandboxId", "sb-9")] (getAccounts [])).headers ∧
    ("sandbox-id", "sb-9") ∈
      (buildRequest [("baseUrl", "https://example.test"), ("accessToken", "tok-1"),
        ("sandboxId", "sb-9")] (getAccounts [])).headers :=
  ⟨(c5_base_url_and_auth_headers [] (getAccounts [])).1 rfl,
   (c5_base_url_and_auth_headers _ (getAccounts [])).2.1 _ rfl (by decide),
   (c5_base_url_and_auth_headers _ (getAccounts [])).2.2.1 _ rfl (by decide),
   (c5_base_url_and_auth_headers _ (getAccounts [])).2.2.2 _ rfl (by decide)⟩

/-- Truthiness of an optional string value equals being present and
non-empty. -/
theorem strTruthy_some_iff (s : String) : strTruthy (some s) = true ↔ s ≠ "" := by
  constructor
  · intro h hs
    subst hs
    exact absurd h (by decide)
  · intro hs
    cases he : s.isEmpty with
    | false => simp [strTruthy, he]
    | true => exact absurd ((String.isEmpty_iff s).mp he) hs

/-- Membership in one conditional singleton of a `params` object. -/
theorem mem_optParams_single (k kk : String) (w : Option String) (v : String) :
    ((kk, v) ∈ (if strTruthy w then [(k, w.getD "")] else [])) ↔
      (strTruthy w = true ∧ kk = k ∧ v = w.getD "") := by
  by_cases h : strTruthy w = true <;> simp [h]

/-- C6: for `transactions get`, `transactions list` and `statements get`,
the query parameters are exactly the two optional date bounds: the `from`
key is sent iff `--from` is given (with a non-empty value, per JS
truthiness) and then equals it; likewise the `to` key for `--to`; and no
other parameter is ever sent.  The keys are
`fromBookingDateTime`/`toBookingDateTime` for transactions and
`fromStatementDateTime`/`toStatementDateTime` for statements. -/
theorem c6_date_range_query_params :
    (∀ aid f t j, (transactionsGetCall aid ⟨f, t, j⟩).params =
        optParams "fromBookingDateTime" "toBookingDateTime" f t) ∧
    (∀ f t j, (transactionsListCall ⟨f, t, j⟩).params =
        optParams "fromBookingDateTime" "toBookingDateTime" f t) ∧
    (∀ aid f t j, (statementsGetCall aid ⟨f, t, j⟩).params =
        optParams "fromStatementDateTime" "toStatementDateTime" f t) ∧
    (∀ k1 k2 f t v, k1 ≠ k2 →
      (((k1, v) ∈ optParams k1 k2 f t) ↔ f = some v ∧ v ≠ "") ∧
      (((k2, v) ∈ optParams k1 k2 f t) ↔ t = some v ∧ v ≠ "")) ∧
    (∀ k1 k2 f t p, p ∈ optParams k1 k2 f t → p.1 = k1 ∨ p.1 = k2) := by
  refine ⟨fun _ _ _ _ => rfl, fun _ _ _ => rfl, fun _ _ _ _ => rfl,
    fun k1 k2 f t v hne => ⟨?_, ?_⟩, fun k1 k2 f t p hp => ?_⟩
  · rw [optParams, List.mem_append, mem_optParams_single, mem_optParams_single]
    constructor
    · rintro (⟨htr, -, hv⟩ | ⟨-, hk, -⟩)
      · cases f with
        | none => exact absurd htr (by decide)
        | some s =>
          refine ⟨by rw [hv]; rfl, ?_⟩
          rw [hv]
          exact (strTruthy_some_iff s).mp htr
      · exact absurd hk hne
    · rintro ⟨hf, hv⟩
      subst hf
      exact Or.inl ⟨(strTruthy_some_iff v).mpr hv, rfl, rfl⟩
  · rw [optParams, List.mem_append, mem_optParams_single, mem_optParams_single]
    constructor
    · rintro (⟨-, hk, -⟩ | ⟨htr, -, hv⟩)
      · exact absurd hk.symm hne
      · cases t with
        | none => exact absurd htr (by decide)
        | some s =>
          refine ⟨by rw [hv]; rfl, ?_⟩
          rw [hv]
          exact (strTruthy_some_iff s).mp htr
    · rintro ⟨ht, hv⟩
      subst ht
      exact Or.inr ⟨(strTruthy_some_iff v).mpr hv, rfl, rfl⟩
  · rw [optParams, List.mem_append] at hp
    rcases hp with hp | hp <;> [left; right] <;>
    · split at hp <;> simp_all

/-- C6 witness: `--from` given as a concrete date, `--to` absent. -/
theorem c6_date_range_query_params_witness :
    (("fromBookingDateTime", "2026-01-01T00:00:00Z") ∈
      optParams "fromBookingDateTime" "toBookingDateTime"
        (some "2026-01-01T00:00:00Z") none) ∧
    ("fromBookingDateTime" = "fromBookingDateTime" ∨
      "fromBookingDateTime" = "toBookingDateTime") ∧
    (transactionsGetCall "acc-1" ⟨some "2026-01-01T00:00:00Z", none, false⟩).params =
      optParams "fromBookingDateTime" "toBookingDateTime"
        (some "2026-01-01T00:00:00Z") none :=
  ⟨((c6_date_range_query_params.2.2.2.1 "fromBookingDateTime" "toBookingDateTime"
      (some "2026-01-01T00:00:00Z") none "2026-01-01T00:00:00Z" (by decide)).1).mpr
      ⟨rfl, by decide⟩,
   c6_date_range_query_params.2.2.2.2 "fromBookingDateTime" "toBookingDateTime"
      (some "2026-01-01T00:00:00Z") none ("fromBookingDateTime", "2026-01-01T00:00:00Z")
      (by decide),
   c6_date_range_query_params.1 "acc-1" (some "2026-01-01T00:00:00Z") none false⟩

/-- C9: `config set` writes exactly the keys whose options are supplied
(with a non-empty value, per JS truthiness), leaves every other key of the
store unchanged, and when none of the three options is supplied it prints
an error message to stderr, changes nothing, and still exits 0. -/
theorem c9_config_set_frame (o : ConfigSetOpts) (store : ConfigStore) :
    (∀ v, o.baseUrl = some v → v ≠ "" →
      getConfig (configSetAction o store).1 "baseUrl" = some v) ∧
    (strTruthy o.baseUrl = false →
      getConfig (configSetAction o store).1 "baseUrl" = getConfig store "baseUrl") ∧
    (∀ v, o.accessToken = some v → v ≠ "" →
      getConfig (configSetAction o store).1 "accessToken" = some v) ∧
    (strTruthy o.accessToken = false →
      getConfig (configSetAction o store).1 "accessToken" = getConfig store "accessToken") ∧
    (∀ v, o.sandboxId = some v → v ≠ "" →
      getConfig (configSetAction o store).1 "sandboxId" = some v) ∧
    (strTruthy o.sandboxId = false →
      getConfig (configSetAction o store).1 "sandboxId" = getConfig store "sandboxId") ∧
    (∀ k, k ≠ "baseUrl" → k ≠ "accessToken" → k ≠ "sandboxId" →
      getConfig (configSetAction o store).1 k = getConfig store k) ∧
    (strTruthy o.baseUrl = false → strTruthy o.accessToken = false →
      strTruthy o.sandboxId = false →
      (configSetAction o store).1 = store ∧
      (configSetAction o store).2 =
        ⟨[], ["✗ No options provided. Use --base-url, --access-token, or --sandbox-id"], 0⟩) := by
  refine ⟨fun v hv hne => ?_, fun hb => ?_, fun v hv hne => ?_, fun ha => ?_,
    fun v hv hne => ?_, fun hs => ?_, fun k hk1 hk2 hk3 => ?_,
    fun hb ha hs => ?_⟩
  · have hb : strTruthy o.baseUrl = true := by
      rw [hv]; exact (strTruthy_some_iff v).mpr hne
    have hval : o.baseUrl.getD "" = v := by rw [hv]; rfl
    by_cases ha : strTruthy o.accessToken = true <;>
      by_cases hs : strTruthy o.sandboxId = true <;>
        simp [configSetAction, hb, ha, hs, hval, setConfig, getConfig]
  · by_cases ha : strTruthy o.accessToken = true <;>
      by_cases hs : strTruthy o.sandboxId = true <;>
        simp [configSetAction, hb, ha, hs, setConfig, getConfig]
  · have ha : strTruthy o.accessToken = true := by
      rw [hv]; exact (strTruthy_some_iff v).mpr hne
    have hval : o.accessToken.getD "" = v := by rw [hv]; rfl
    by_cases hb : strTruthy o.baseUrl = true <;>
      by_cases hs : strTruthy o.sandboxId = true <;>
        simp [configSetAction, hb, ha, hs, hval, setConfig, getConfig]
  · by_cases hb : strTruthy o.baseUrl = true <;>
      by_cases hs : strTruthy o.sandboxId = true <;>
        simp [configSetAction, hb, ha, hs, setConfig, getConfig]
  · have hs : strTruthy o.sandboxId = true := by
      rw [hv]; exact (strTruthy_some_iff v).mpr hne
    have hval : o.sandboxId.getD "" = v := by rw [hv]; rfl
    by_cases hb : strTruthy o.baseUrl = true <;>
      by_cases ha : strTruthy o.accessToken = true <;>
        simp [configSetAction, hb, ha, hs, hval, setConfig, getConfig]
  · by_cases hb : strTruthy o.baseUrl = true <;>
      by_cases ha : strTruthy o.accessToken = true <;>
        simp [configSetAction, hb, ha, hs, setConfig, getConfig]
  · by_cases hb : strTruthy o.baseUrl = true <;>
      by_cases ha : strTruthy o.accessToken = true <;>
        by_cases hs : strTruthy o.sandboxId = true <;>
          simp [configSetAction, hb, ha, hs, setConfig, getConfig,
            hk1.symm, hk2.symm, hk3.symm]
  · simp [configSetAction, hb, ha, hs, errorLine, jsToString]

/-- C9 witness: setting only the base URL, from a store with a token. -/
theorem c9_config_set_frame_witness :
    getConfig (configSetAction ⟨some "https://example.test", none, none⟩
      [("accessToken", "tok-1")]).1 "baseUrl" = some "https://example.test" ∧
    getConfig (configSetAction ⟨some "https://example.test", none, none⟩
      [("accessToken", "tok-1")]).1 "accessToken" =
      getConfig [("accessToken", "tok-1")] "accessToken" ∧
    getConfig (configSetAction ⟨some "https://example.test", none, none⟩
      [("accessToken", "tok-1")]).1 "otherKey" =
      getConfig [("accessToken", "tok-1")] "otherKey" ∧
    (configSetAction ⟨none, none, none⟩ [("accessToken", "tok-1")]).1 =
      [("accessToken", "tok-1")] ∧
    (configSetAction ⟨none, none, none⟩ [("accessToken", "tok-1")]).2 =
      ⟨[], ["✗ No options provided. Use --base-url, --access-token, or --sandbox-id"], 0⟩ :=
  ⟨(c9_config_set_frame _ _).1 _ rfl (by decide),
   (c9_config_set_frame _ _).2.2.2.1 rfl,
   (c9_config_set_frame _ _).2.2.2.2.2.2.1 "otherKey" (by decide) (by decide) (by decide),
   ((c9_config_set_frame ⟨none, none, none⟩ _).2.2.2.2.2.2.2 rfl rfl rfl).1,
   ((c9_config_set_frame ⟨none, none, none⟩ _).2.2.2.2.2.2.2 rfl rfl rfl).2⟩

/-- A non-empty string is not `isEmpty`. -/
theorem isEmpty_false_of_ne {v : String} (h : v ≠ "") : v.isEmpty = false := by
  cases he : v.isEmpty with
  | false => rfl
  | true => exact absurd ((String.isEmpty_iff v).mp he) h

/-- C8 counterexample: after `config set --access-token tok123`,
`config show` prints the masking word `Set` on the access-token line; the
value `tok123` appears nowhere in the output, so the claimed set/show
round-trip fails for the `accessToken` key. -/
theorem c8_counterexample_token_masked :
    (configShowAction (configSetAction ⟨none, some "tok123", none⟩ []).1).stdout =
      ["\nNBG CLI Configuration\n",
       "Base URL:       https://apis.nbg.gr/uk/v3_1 (default)",
       "Access Token:   Set",
       "Sandbox ID:     Not set",
       ""] ∧
    ∀ l ∈ (configShowAction (configSetAction ⟨none, some "tok123", none⟩ []).1).stdout,
      ¬ ("tok123".data <:+: l.data) :=
  ⟨rfl, by decide⟩

/-- C8 (amended): configuration values round-trip through set/show for
`baseUrl` and `sandboxId`: after `config set` with a non-empty value `v`,
`config show` displays `v` on the corresponding line.  The access token
does not round-trip: for any stored non-empty token other than the
literal string `Not set`, `config show` displays the masking word `Set`
on the access-token line instead of the value. -/
theorem c8_roundtrip_amended (store : ConfigStore) (v : String) (hv : v ≠ "") :
    (configShowAction (configSetAction ⟨some v, none, none⟩ store).1).stdout.get? 1 =
      some (logTwo "Base URL:      " v) ∧
    (configShowAction (configSetAction ⟨none, none, some v⟩ store).1).stdout.get? 3 =
      some (logTwo "Sandbox ID:    " v) ∧
    (v ≠ "Not set" →
      (configShowAction (configSetAction ⟨none, some v, none⟩ store).1).stdout.get? 2 =
        some "Access Token:   Set") := by
  have hb : strTruthy (some v) = true := (strTruthy_some_iff v).mpr hv
  have hie : v.isEmpty = false := isEmpty_false_of_ne hv
  refine ⟨?_, ?_, fun hns => ?_⟩
  · simp [configSetAction, configShowAction, hb, setConfig, getConfig, jsOr, hie]
  · simp [configSetAction, configShowAction, hb, setConfig, getConfig, jsOr, hie]
  · simp [configSetAction, configShowAction, hb, setConfig, getConfig, jsOr, hie, hns]
    rfl

/-- C8 witness (for the amended claim): a concrete value through each
key. -/
theorem c8_roundtrip_amended_witness :
    (configShowAction (configSetAction ⟨some "https://example.test", none, none⟩ []).1).stdout.get? 1 =
      some (logTwo "Base URL:      " "https://example.test") ∧
    (configShowAction (configSetAction ⟨none, none, some "sb-9"⟩ []).1).stdout.get? 3 =
      some (logTwo "Sandbox ID:    " "sb-9") ∧
    (configShowAction (configSetAction ⟨none, some "tok-1", none⟩ []).1).stdout.get? 2 =
      some "Access Token:   Set" :=
  ⟨(c8_roundtrip_amended [] "https://example.test" (by decide)).1,
   (c8_roundtrip_amended [] "sb-9" (by decide)).2.1,
   (c8_roundtrip_amended [] "tok-1" (by decide)).2.2 (by decide)⟩

/-- `padEnd` yields the longer of the string and the target width. -/
theorem padEnd_length (s : String) (w : Nat) : (padEnd s w).length = max s.length w := by
  have h : (padEnd s w).length = s.length + (w - s.length) := by simp [padEnd]
  omega

/-- `substring(0, w)` yields at most `w` characters. -/
theorem jsSubstring0_length (s : String) (w : Nat) :
    (jsSubstring0 s w).length = min w s.length := by
  have h : (jsSubstring0 s w).length = (s.data.take w).length := rfl
  rw [h, List.length_take]
  rfl

/-- Folding the width assignments never touches an absent key. -/
theorem foldl_widths_not_mem (data : List JVal) (cols : List Column)
    (f : String → Nat) (k : String) (h : k ∉ cols.map Column.key) :
    List.foldl (widthsStep data) f cols k = f k := by
  induction cols generalizing f with
  | nil => rfl
  | cons c cs ih =>
    simp only [List.map_cons, List.mem_cons, not_or] at h
    rw [List.foldl_cons, ih _ h.2]
    simp [widthsStep, h.1]

/-- With pairwise distinct column keys, the `widths` object holds each
column's own computed width. -/
theorem foldl_widths_eq (data : List JVal) :
    ∀ (cols : List Column) (f : String → Nat) (c : Column),
      c ∈ cols → (cols.map Column.key).Nodup →
      List.foldl (widthsStep data) f cols c.key = colWidth data c := by
  intro cols
  induction cols with
  | nil =>
    intro f c hc _
    exact absurd hc (by simp)
  | cons c' cs ih =>
    intro f c hc hnd
    rw [List.foldl_cons]
    have hnd2 : (c'.key :: cs.map Column.key).Nodup := by simpa using hnd
    have hnd' := List.nodup_cons.mp hnd2
    rcases List.mem_cons.mp hc with h1 | h1
    · subst h1
      rw [foldl_widths_not_mem data cs _ _ hnd'.1]
      simp [widthsStep]
    · exact ih _ c h1 hnd'.2

/-- C3 counterexample: a column whose label is 51 characters long.  The
width is capped at 50, but the header cell is only padded — never
truncated — so it is 51 characters, not the column's width. -/
theorem c3_counterexample_long_header :
    (headerCell [JVal.obj []] [⟨"k", String.mk (List.replicate 51 'a')⟩]
        ⟨"k", String.mk (List.replicate 51 'a')⟩).length = 51 ∧
    computeWidths [JVal.obj []] [⟨"k", String.mk (List.replicate 51 'a')⟩] "k" = 50 ∧
    (headerCell [JVal.obj []] [⟨"k", String.mk (List.replicate 51 'a')⟩]
        ⟨"k", String.mk (List.replicate 51 'a')⟩).length ≠
      computeWidths [JVal.obj []] [⟨"k", String.mk (List.replicate 51 'a')⟩] "k" :=
  ⟨by decide, by decide, by decide⟩

/-- C3 (amended): for every non-empty row list and every column list with
pairwise distinct keys (true of all of the program's tables), each
column's width is the maximum of the label length and the longest
formatted cell value capped at 50; every data cell has exactly that
width (longer values truncated, shorter padded); and each header cell is
right-padded to the larger of the width and the label length — so it
equals the width exactly whenever the label is at most 50 characters,
labels being padded but never truncated. -/
theorem c3_table_cell_widths_amended (data : List JVal) (cols : List Column)
    (hdata : data ≠ []) (hkeys : (cols.map Column.key).Nodup) :
    ∀ c ∈ cols, colWidth data c ≤ 50 ∧
      (∀ row ∈ data, (dataCell data cols c row).length = colWidth data c) ∧
      (headerCell data cols c).length = max c.label.length (colWidth data c) := by
  intro c hc
  have hw : computeWidths data cols c.key = colWidth data c :=
    foldl_widths_eq data cols _ c hc hkeys
  refine ⟨Nat.min_le_right _ _, fun row _ => ?_, ?_⟩
  · rw [dataCell, hw, padEnd_length, jsSubstring0_length]
    omega
  · rw [headerCell, hw, padEnd_length]

/-- C3 witness: the `accounts list` column set over one row with a long
nickname (56 characters, so the name column is capped at 50). -/
theorem c3_table_cell_widths_amended_witness :
    colWidth [JVal.obj [("name", JVal.str (String.mk (List.replicate 56 'n')))]]
      ⟨"name", "Name"⟩ ≤ 50 ∧
    (dataCell [JVal.obj [("name", JVal.str (String.mk (List.replicate 56 'n')))]]
        accountsListCols ⟨"name", "Name"⟩
        (JVal.obj [("name", JVal.str (String.mk (List.replicate 56 'n')))])).length =
      colWidth [JVal.obj [("name", JVal.str (String.mk (List.replicate 56 'n')))]]
        ⟨"name", "Name"⟩ ∧
    (headerCell [JVal.obj [("name", JVal.str (String.mk (List.replicate 56 'n')))]]
        accountsListCols ⟨"name", "Name"⟩).length =
      max ("Name" : String).length
        (colWidth [JVal.obj [("name", JVal.str (String.mk (List.replicate 56 'n')))]]
          ⟨"name", "Name"⟩) := by
  have h := c3_table_cell_widths_amended
    [JVal.obj [("name", JVal.str (String.mk (List.replicate 56 'n')))]]
    accountsListCols (by simp) (by decide) ⟨"name", "Name"⟩
    (by simp [accountsListCols])
  exact ⟨h.1, h.2.1 _ (by simp), h.2.2⟩

/-- An optional chain on a nullish receiver is nullish. -/
theorem isNullish_optProp {v : JVal} (k : String) (h : isNullish v = true) :
    isNullish (optProp v k) = true := by
  rw [optProp, if_pos h]
  rfl

end Nbg
